import Mathlib

/-!
Verification of the order-management backend: a shallow embedding of the
order data model, the status transition engine, the creation/validation
path, the aggregation queries and the courier subsystem, together with
theorems settling the specification claims about them.

Sources embedded here:
  * `src/src/models/Order.js` (class `Order` and class `CourierController`),
  * `src/server-db.js` (db-backed HTTP routes),
  * `src/src/controllers/analyticsController.js` (class `OrdersController`),
  * `src/unnamed/part_001` (the in-memory server variant).
-/

/-- Calendar date, the value MySQL DATE(createdAt) and JS toDateString compare. -/
structure Date where
  year : Nat
  month : Nat
  day : Nat
deriving DecidableEq

/-- A point in time: a calendar date plus an opaque time-of-day component.
DATE(ts) extracts the date part. -/
structure Timestamp where
  date : Date
  timeOfDay : Nat
deriving DecidableEq

/-- A row of the orders table (schema in the seed script: id, order_id,
fullName, address, mobile, product_id, product_name, quantity INT,
status ENUM, notes, total_amount DECIMAL, createdAt, updatedAt).
The in-memory server variant stores records of the same shape. -/
structure OrderRec where
  id : Nat
  order_id : String
  fullName : String
  address : String
  mobile : String
  product_id : String
  product_name : String
  quantity : Int
  status : String
  notes : String
  total_amount : Int
  createdAt : Timestamp
  updatedAt : Timestamp
deriving DecidableEq

/-- A row of the products table: `findByRef` exposes at least name and price. -/
structure Product where
  product_id : String
  name : String
  price : Int
deriving DecidableEq

/-- JS whitespace class: the characters matched by the regex class backslash-s,
listed by code point (tab, LF, VT, FF, CR, space, NBSP, ogham space,
the U+2000..U+200A range, LS, PS, NNBSP, MMSP, ideographic space, BOM). -/
def jsWhitespace (c : Char) : Bool :=
  c.toNat = 9 || c.toNat = 10 || c.toNat = 11 || c.toNat = 12 || c.toNat = 13 ||
  c.toNat = 32 || c.toNat = 160 || c.toNat = 5760 ||
  (8192 ≤ c.toNat && c.toNat ≤ 8202) ||
  c.toNat = 8232 || c.toNat = 8233 || c.toNat = 8239 || c.toNat = 8287 ||
  c.toNat = 12288 || c.toNat = 65279

/-- `mobile.replace(/[\s\-\+]/g, "")` from `Order.validateOrderData`:
drop every whitespace, dash and plus character. -/
def stripSeparators (s : String) : List Char :=
  s.data.filter (fun c => !(jsWhitespace c || c = '-' || c = '+'))

/-- `mobile.replace(/[\s\-]/g, "")` used when sanitising the stored mobile:
drops whitespace and dashes but keeps plus signs. -/
def stripSpacesDashes (s : String) : String :=
  ⟨s.data.filter (fun c => !(jsWhitespace c || c = '-'))⟩

/-- `str.trim()`: drop leading and trailing whitespace (the JS whitespace
class, line terminators included). -/
def jsTrim (s : String) : String :=
  ⟨((((s.data.dropWhile (fun c => jsWhitespace c)).reverse).dropWhile
      (fun c => jsWhitespace c)).reverse)⟩

/-- The test `/^[0-9]{10,15}$/.test(str)` applied to a character list:
every character is an ASCII digit and the length lies in [10, 15]. -/
def mobileRegexTest (cs : List Char) : Bool :=
  cs.all (fun c => c.isDigit) && decide (10 ≤ cs.length) && decide (cs.length ≤ 15)

/-- The mobile acceptance check of `Order.validateOrderData` line 16:
the error fires when `!data.mobile || !regex.test(stripped)`, so the value is
accepted when it is a nonempty string whose stripped form passes the regex. -/
def mobileAccepted (mobile : String) : Bool :=
  !(mobile = "") && mobileRegexTest (stripSeparators mobile)

/-- `parseInt` on a string argument: skip leading whitespace, read an optional
sign and then leading decimal digits; none models the NaN result when no digit
is found. -/
def jsParseInt (s : String) : Option Int :=
  let cs := s.data.dropWhile (fun c => jsWhitespace c)
  let (sign, rest) : Int × List Char :=
    match cs with
    | '-' :: r => (-1, r)
    | '+' :: r => (1, r)
    | _ => (1, cs)
  let digits := rest.takeWhile (fun c => c.isDigit)
  if digits.isEmpty then none
  else some (sign * (digits.foldl (fun acc c => acc * 10 + (Int.ofNat (c.toNat - 48))) 0))

/-- The raw creation payload (`req.body` fields read by `Order.create`).
Absent optional fields are `none`; absent string fields are the empty string,
which is falsy in JS exactly like an absent field at every check the code
performs. A supplied `total_amount` of 0 is falsy in JS, which the creation
code then treats like an absent amount. -/
structure OrderInput where
  fullName : String
  address : String
  mobile : String
  product_id : String
  product_name : String
  quantity : String
  status : Option String
  notes : String
  total_amount : Option Int
deriving DecidableEq

/-- `Order.validateOrderData(data)`: accumulates all field violations into one
list, in source order, without short-circuiting. The quantity rule mirrors
`!data.quantity || parseInt(data.quantity) < 1`: a non-numeric quantity string
gives parseInt NaN, and `NaN < 1` is false in JS, so no error is pushed. -/
def validateOrderData (data : OrderInput) : List String :=
  (if data.fullName = "" || (jsTrim data.fullName).length < 2 then
    ["Full name is required (minimum 2 characters)"] else []) ++
  (if data.address = "" || (jsTrim data.address).length < 5 then
    ["Valid address is required"] else []) ++
  (if !(mobileAccepted data.mobile) then
    ["Valid mobile number is required"] else []) ++
  (if data.product_id = "" then
    ["Product ID is required"] else []) ++
  (if data.quantity = "" ||
      (match jsParseInt data.quantity with
       | some q => q < 1
       | none => False) then
    ["Valid quantity is required"] else [])

/-- Failure modes of the creation paths. -/
inductive CreateError where
  | validation (errors : List String)
  | productNotFound
  | dbError
deriving DecidableEq

/-- `Order.create(orderData)`: validate, sanitise and insert. The caller
supplies the generated order code, the auto-increment id and the current
timestamp (which the schema assigns to both createdAt and updatedAt).
Status defaults to "pending" when the payload has no status field.
When no truthy total_amount is supplied the code falls back to
`parseInt(quantity) * 10000`, a constant unit price. A quantity string that
parses to NaN would be inserted into the INT NOT NULL column and the insert
fails, modelled by the dbError branch. -/
def Order.create (input : OrderInput) (orderCode : String) (nextId : Nat)
    (now : Timestamp) : Except CreateError OrderRec :=
  let errors := validateOrderData input
  if errors ≠ [] then .error (.validation errors)
  else
    match jsParseInt input.quantity with
    | none => .error .dbError
    | some q =>
      .ok { id := nextId
            order_id := orderCode
            fullName := jsTrim input.fullName
            address := jsTrim input.address
            mobile := stripSpacesDashes input.mobile
            product_id := input.product_id
            product_name := input.product_name
            quantity := q
            status := input.status.getD "pending"
            notes := jsTrim input.notes
            total_amount :=
              match input.total_amount with
              | some t => if t = 0 then q * 10000 else t
              | none => q * 10000
            createdAt := now
            updatedAt := now }

/-- `OrdersController.createOrder` (analytics controller file): resolves the
product against the catalog, defaults the product name from the catalog, and
computes `total_amount || quantity * product.price` before delegating to
`Order.create`. The controller never passes a status field, so the created
order takes the creation default. The source forwards quantity already passed
through parseInt; the embedding forwards the raw string and lets the creation
step parse it, which differs only on non-numeric quantities, where both
paths reject the request. -/
def createOrder (catalog : List Product) (input : OrderInput) (orderCode : String)
    (nextId : Nat) (now : Timestamp) : Except CreateError OrderRec :=
  match catalog.find? (fun p => p.product_id == input.product_id) with
  | none => .error .productNotFound
  | some product =>
    let computedTotal : Option Int := (jsParseInt input.quantity).map (fun q => q * product.price)
    let total : Option Int :=
      match input.total_amount with
      | some t => if t = 0 then computedTotal else some t
      | none => computedTotal
    Order.create
      { input with
        product_name := if input.product_name = "" then product.name else input.product_name
        status := none
        total_amount := total }
      orderCode nextId now

/-- `SELECT * FROM orders WHERE id = ? LIMIT 1` (`Order.findById`). -/
def findById (orders : List OrderRec) (id : Nat) : Option OrderRec :=
  orders.find? (fun o => o.id == id)

/-- `UPDATE orders SET status = ? WHERE id = ?` (`Order.updateStatus`); the
schema refreshes updatedAt on every update (ON UPDATE CURRENT_TIMESTAMP). -/
def updateStatusDb (orders : List OrderRec) (id : Nat) (status : String)
    (now : Timestamp) : List OrderRec :=
  orders.map (fun o => if o.id == id then { o with status := status, updatedAt := now } else o)

/-- `DELETE FROM orders WHERE id = ?` then `return true` (`Order.delete`):
the function returns true without inspecting how many rows were removed. -/
def Order.delete (orders : List OrderRec) (id : Nat) : List OrderRec × Bool :=
  (orders.filter (fun o => !(o.id == id)), true)

/-- The three courier statuses (`validStatuses` in the courier controller). -/
def courierStatuses : List String := ["sended", "in-transit", "delivered"]

/-- `CourierController.isValidStatusTransition(currentStatus, newStatus)`:
lookup of the current status in the transition object, `false` when the
current status has no row. -/
def isValidStatusTransition (currentStatus newStatus : String) : Bool :=
  if currentStatus = "sended" then (["in-transit", "delivered"] : List String).contains newStatus
  else if currentStatus = "in-transit" then (["delivered"] : List String).contains newStatus
  else if currentStatus = "delivered" then (([] : List String)).contains newStatus
  else false

/-- Outcomes of `CourierController.updateCourierStatus`, in the order the
code checks them. -/
inductive CourierUpdateResult where
  | missingStatus
  | invalidCourierStatus
  | notFound
  | invalidTransition (fromStatus toStatus : String)
  | ok
deriving DecidableEq

/-- `CourierController.updateCourierStatus(req)`: requires a truthy status,
requires it to be one of the courier statuses, requires the order to exist,
requires the transition table to allow the move, and only then updates. -/
def updateCourierStatus (orders : List OrderRec) (id : Nat) (status : String)
    (now : Timestamp) : CourierUpdateResult × List OrderRec :=
  if status = "" then (.missingStatus, orders)
  else if !(courierStatuses.contains status) then (.invalidCourierStatus, orders)
  else
    match findById orders id with
    | none => (.notFound, orders)
    | some order =>
      if !(isValidStatusTransition order.status status) then
        (.invalidTransition order.status status, orders)
      else
        (.ok, updateStatusDb orders id status now)

/-- Outcomes of the general status-update endpoints. -/
inductive StatusUpdateResult where
  | invalidId
  | invalidStatus
  | notFound
  | ok
deriving DecidableEq

/-- The status list accepted by `PUT /api/orders/:id/status` in server-db.js:
the full seven-member state set, cancelled included. -/
def validStatusesDb : List String :=
  ["pending", "received", "issued", "sended", "in-transit", "delivered", "cancelled"]

/-- The status list accepted by `OrdersController.updateOrderStatus`:
six members, cancelled missing. -/
def validStatusesCtrl : List String :=
  ["pending", "received", "issued", "sended", "in-transit", "delivered"]

/-- `PUT /api/orders/:id/status` in server-db.js: parse and range-check the
id, check membership of the new status in the full state list, run the
unguarded UPDATE, and report not-found only if the refreshed lookup is empty.
No transition table is consulted. -/
def updateOrderStatusDb (orders : List OrderRec) (id : Nat) (status : String)
    (now : Timestamp) : StatusUpdateResult × List OrderRec :=
  if id < 1 then (.invalidId, orders)
  else if status = "" || !(validStatusesDb.contains status) then (.invalidStatus, orders)
  else
    let updated := updateStatusDb orders id status now
    match findById updated id with
    | none => (.notFound, updated)
    | some _ => (.ok, updated)

/-- `OrdersController.updateOrderStatus`: truthy status, membership in the
six-member list, existence of the order, then the unguarded update.
No transition table is consulted. -/
def updateOrderStatusCtrl (orders : List OrderRec) (id : Nat) (status : String)
    (now : Timestamp) : StatusUpdateResult × List OrderRec :=
  if status = "" then (.invalidStatus, orders)
  else if !(validStatusesCtrl.contains status) then (.invalidStatus, orders)
  else
    match findById orders id with
    | none => (.notFound, orders)
    | some _ => (.ok, updateStatusDb orders id status now)

/-- The creation payload of the in-memory server variant: exactly the five
fields `POST /api/orders` reads there. -/
structure MemOrderInput where
  fullName : String
  address : String
  mobile : String
  product : String
  quantity : String
deriving DecidableEq

/-- Result of the in-memory creation endpoint. -/
inductive MemCreateResult where
  | badRequest (msg : String)
  | created (order : OrderRec)
deriving DecidableEq

/-- `String(n).padStart(3, "0")`. -/
def padStart3 (n : Nat) : String :=
  let s := toString n
  (⟨List.replicate (3 - s.length) '0'⟩ : String) ++ s

/-- The product map of the in-memory creation endpoint: it has a single key,
herbal-cream, and every other product falls back to that same entry, so every
order is priced at the herbal-cream unit price of 10000. -/
def memProductDetails (product : String) : String × String × Int :=
  if product = "herbal-cream" then ("PROD001", "ආත්තෝර ආලේපය", 10000)
  else ("PROD001", "ආත්තෝර ආලේපය", 10000)

/-- `POST /api/orders` of the in-memory server variant: checks presence of all
five fields, name length, the mobile rule and a quantity in [1, 100]; then
creates the record with status received, pricing it from the product map.
The source stores id and quantity as strings and has no notes or updatedAt
field; the embedding reuses `OrderRec` with notes empty and
updatedAt = createdAt. -/
def memCreateOrder (orders : List OrderRec) (input : MemOrderInput)
    (now : Timestamp) : MemCreateResult :=
  if input.fullName = "" || input.address = "" || input.mobile = "" ||
     input.product = "" || input.quantity = "" then
    .badRequest "All fields are required"
  else if (jsTrim input.fullName).length < 2 then
    .badRequest "Valid full name is required (minimum 2 characters)"
  else if !(mobileRegexTest (stripSeparators input.mobile)) then
    .badRequest "Valid mobile number is required (10-15 digits)"
  else
    match jsParseInt input.quantity with
    | none => .badRequest "Valid quantity is required (1-100)"
    | some qty =>
      if qty < 1 || 100 < qty then
        .badRequest "Valid quantity is required (1-100)"
      else
        let details := memProductDetails input.product
        .created
          { id := orders.length + 1
            order_id := "ORD2024" ++ padStart3 (orders.length + 1)
            fullName := jsTrim input.fullName
            address := jsTrim input.address
            mobile := stripSpacesDashes input.mobile
            product_id := details.1
            product_name := details.2.1
            quantity := qty
            status := "received"
            notes := ""
            total_amount := details.2.2 * qty
            createdAt := now
            updatedAt := now }

/-- The status of a created in-memory order, none on a rejected request. -/
def memCreatedStatus : MemCreateResult → Option String
  | .created o => some o.status
  | .badRequest _ => none

/-- The stored amount of a created order, none on a failed creation. -/
def createdTotal : Except CreateError OrderRec → Option Int
  | .ok o => some o.total_amount
  | .error _ => none

/-- The shape of the row `Order.getDashboardStats` selects. Every SUM-derived
column is an Option because SUM over zero rows is NULL in MySQL; COUNT is
always a number. -/
structure DashboardStats where
  total : Nat
  pending : Option Nat
  received : Option Nat
  issued : Option Nat
  courier : Option Nat
  today : Option Nat
  monthly : Option Nat
  total_revenue : Option Int
deriving DecidableEq

/-- `SUM(CASE WHEN p THEN 1 ELSE 0 END)`: NULL over zero rows, otherwise the
number of rows satisfying the predicate. -/
def sqlCountIf (p : OrderRec → Bool) (orders : List OrderRec) : Option Nat :=
  if orders.isEmpty then none else some (orders.filter p).length

/-- `SUM(total_amount)`: NULL over zero rows, otherwise the sum. -/
def sqlSumAmount (orders : List OrderRec) : Option Int :=
  if orders.isEmpty then none else some ((orders.map (fun o => o.total_amount)).sum)

/-- `Order.getDashboardStats`: the single aggregate row of the stats query,
evaluated against the order table and the current date. The query has no
GROUP BY, so it returns exactly one row even over an empty table, which makes
the zero-filled fallback object in the source unreachable; over an empty
table the SUM-derived columns are NULL. -/
def getDashboardStats (orders : List OrderRec) (curdate : Date) : DashboardStats :=
  { total := orders.length
    pending := sqlCountIf (fun o => o.status == "pending") orders
    received := sqlCountIf (fun o => o.status == "received") orders
    issued := sqlCountIf (fun o => o.status == "issued") orders
    courier := sqlCountIf (fun o =>
      o.status == "sended" || o.status == "in-transit" || o.status == "delivered") orders
    today := sqlCountIf (fun o => o.createdAt.date == curdate) orders
    monthly := sqlCountIf (fun o =>
      o.createdAt.date.month == curdate.month && o.createdAt.date.year == curdate.year) orders
    total_revenue := sqlSumAmount orders }

/-- The numeric payload of `GET /api/dashboard/stats` in server-db.js, which
reports the seven count fields and drops total_revenue. -/
structure FormattedStats where
  total : Nat
  pending : Nat
  received : Nat
  issued : Nat
  courier : Nat
  today : Nat
  monthly : Nat
deriving DecidableEq

/-- The formatting step of `GET /api/dashboard/stats` in server-db.js:
`parseInt(value) || 0` maps a NULL column to 0 and keeps a count unchanged. -/
def formatDashboardStats (s : DashboardStats) : FormattedStats :=
  ⟨s.total, s.pending.getD 0, s.received.getD 0, s.issued.getD 0,
   s.courier.getD 0, s.today.getD 0, s.monthly.getD 0⟩

/-- The numeric payload of the in-memory `GET /api/dashboard/stats`. -/
structure MemStats where
  total : Nat
  pending : Nat
  received : Nat
  issued : Nat
  courier : Nat
  today : Nat
  monthly : Nat
deriving DecidableEq

/-- `GET /api/dashboard/stats` of the in-memory server variant: pending and
received both count the received status, the courier bucket counts only
sended and in-transit, the monthly bucket compares the month number without
the year, and no revenue field is reported. -/
def memDashboardStats (orders : List OrderRec) (nowDate : Date) : MemStats :=
  { total := orders.length
    pending := (orders.filter (fun o => o.status == "received")).length
    received := (orders.filter (fun o => o.status == "received")).length
    issued := (orders.filter (fun o => o.status == "issued")).length
    courier := (orders.filter (fun o =>
      o.status == "sended" || o.status == "in-transit")).length
    today := (orders.filter (fun o => o.createdAt.date == nowDate)).length
    monthly := (orders.filter (fun o =>
      o.createdAt.date.month == nowDate.month)).length }

/-- The courier bucket as the claim words it: the number of orders whose
status lies in the union of the three courier statuses. -/
def specCourierCount (orders : List OrderRec) : Nat :=
  (orders.filter (fun o => courierStatuses.contains o.status)).length

/-- The number of orders created on the given calendar day, as the claim
words it. -/
def specTodayCount (orders : List OrderRec) (curdate : Date) : Nat :=
  (orders.filter (fun o => o.createdAt.date == curdate)).length

/-- The revenue total as the claim words it: the sum of the stored amounts
over all orders. -/
def specTotalRevenue (orders : List OrderRec) : Int :=
  (orders.map (fun o => o.total_amount)).sum

/-- The per-request report `CourierController.bulkUpdateStatus` accumulates. -/
structure BulkReport where
  successful : List Nat
  failed : List (Nat × String)
deriving DecidableEq

/-- Response of the bulk courier update: either one of the three wholesale
rejections, or the per-id report. -/
inductive BulkResponse where
  | badRequest (msg : String)
  | report (results : BulkReport)
deriving DecidableEq

/-- One iteration of the bulk-update loop: a missing order or a transition
the table forbids appends a failure entry and leaves the orders alone, every
other id is updated and appended to the successes. -/
def bulkStep (status : String) (now : Timestamp)
    (acc : BulkReport × List OrderRec) (orderId : Nat) : BulkReport × List OrderRec :=
  match findById acc.2 orderId with
  | none => (⟨acc.1.successful, acc.1.failed ++ [(orderId, "Order not found")]⟩, acc.2)
  | some order =>
    if !(isValidStatusTransition order.status status) then
      (⟨acc.1.successful,
        acc.1.failed ++
          [(orderId, "Invalid transition from " ++ order.status ++ " to " ++ status)]⟩,
       acc.2)
    else
      (⟨acc.1.successful ++ [orderId], acc.1.failed⟩, updateStatusDb acc.2 orderId status now)

/-- `CourierController.bulkUpdateStatus`: an empty id array, a missing status
or a non-courier status is rejected wholesale before any processing;
otherwise every id is processed independently by the loop and the per-id
report is returned. -/
def bulkUpdateStatus (orders : List OrderRec) (orderIds : List Nat) (status : String)
    (now : Timestamp) : BulkResponse × List OrderRec :=
  if orderIds.isEmpty then (.badRequest "Order IDs array is required", orders)
  else if status = "" then (.badRequest "Status is required", orders)
  else if !(courierStatuses.contains status) then (.badRequest "Invalid status", orders)
  else
    let r := orderIds.foldl (bulkStep status now) (⟨[], []⟩, orders)
    (.report r.1, r.2)

/-- One checkpoint of the delivery timeline response. -/
structure TimelineEntry where
  status : String
  label : String
  date : Option Timestamp
  completed : Bool
deriving DecidableEq

/-- `CourierController.getDeliveryTimeline` applied to a found order: the
five checkpoints with their completion flags and timestamps exactly as the
handler builds them. -/
def getDeliveryTimeline (order : OrderRec) : List TimelineEntry :=
  [ { status := "order-placed", label := "Order Placed",
      date := some order.createdAt, completed := true },
    { status := "processed", label := "Order Processed",
      date := if (["received", "issued", "sended", "in-transit", "delivered"] :
          List String).contains order.status then some order.updatedAt else none,
      completed := (["received", "issued", "sended", "in-transit", "delivered"] :
          List String).contains order.status },
    { status := "sended", label := "Sent to Courier",
      date := if (["sended", "in-transit", "delivered"] :
          List String).contains order.status then some order.updatedAt else none,
      completed := (["sended", "in-transit", "delivered"] :
          List String).contains order.status },
    { status := "in-transit", label := "In Transit",
      date := if (["in-transit", "delivered"] :
          List String).contains order.status then some order.updatedAt else none,
      completed := (["in-transit", "delivered"] :
          List String).contains order.status },
    { status := "delivered", label := "Delivered",
      date := if order.status == "delivered" then some order.updatedAt else none,
      completed := order.status == "delivered" } ]

/-- The canonical position of a status in the lifecycle ordering the spec
defines: placed (alias pending) 0, received 1, issued 2, sent-to-courier
(alias sended) 3, in-transit 4, delivered 5. -/
def statusIndex (s : String) : Nat :=
  if s = "pending" then 0
  else if s = "received" then 1
  else if s = "issued" then 2
  else if s = "sended" then 3
  else if s = "in-transit" then 4
  else if s = "delivered" then 5
  else 0

/-- The five lifecycle checkpoints with their labels and the canonical
position at which each counts as reached: the processed checkpoint is
reached from position 1 (received) onward. -/
def timelineCheckpoints : List (String × String × Nat) :=
  [("order-placed", "Order Placed", 0),
   ("processed", "Order Processed", 1),
   ("sended", "Sent to Courier", 3),
   ("in-transit", "In Transit", 4),
   ("delivered", "Delivered", 5)]

/-- The delivery timeline as the amended claim words it: a checkpoint is
completed exactly when the order status sits at or beyond it in the
canonical ordering; every completed checkpoint after the first carries
updatedAt, while the first checkpoint is always completed and carries
createdAt. -/
def specDeliveryTimeline (o : OrderRec) : List TimelineEntry :=
  timelineCheckpoints.map (fun c =>
    let done := c.2.2 ≤ statusIndex o.status
    { status := c.1, label := c.2.1,
      date := if done then (if c.2.2 = 0 then some o.createdAt else some o.updatedAt)
              else none,
      completed := done })

-- Example data used by the concrete theorems below.

def date0 : Date := ⟨2024, 1, 15⟩
def ts0 : Timestamp := ⟨date0, 30⟩
def ts1 : Timestamp := ⟨⟨2024, 1, 10⟩, 5⟩
def ts2 : Timestamp := ⟨⟨2024, 1, 15⟩, 7⟩

/-- An order already handed to the courier. -/
def exSended : OrderRec :=
  ⟨1, "ORD202401004", "Anil Silva", "321 Negombo Road, Negombo", "94705556677",
   "PROD001", "NIRVAAN 5KG (100% PURE COCONUT OIL)", 1, "sended", "", 10000, ts1, ts1⟩

/-- A delivered order. -/
def exDelivered : OrderRec :=
  ⟨1, "ORD202401006", "Dilshan Wijesinghe", "987 Kurunegala Road, Kurunegala",
   "94701112233", "PROD004", "NIRVAAN VIRGIN COCONUT OIL 500ML", 3, "delivered",
   "", 4500, ts1, ts1⟩

/-- A valid payload for the in-memory creation endpoint. -/
def exMemInput : MemOrderInput :=
  ⟨"Kamal Perera", "123 Main Street, Colombo", "0701234567", "herbal-cream", "2"⟩

/-- A catalog with two products at different unit prices. -/
def exCatalog : List Product :=
  [⟨"PROD001", "NIRVAAN 5KG (100% PURE COCONUT OIL)", 10000⟩,
   ⟨"PROD002", "NIRVAAN 1KG (PURE COCONUT OIL)", 2500⟩]

/-- A valid creation payload for the 2500-priced product, with no explicit
amount supplied. -/
def exInputPROD002 : OrderInput :=
  ⟨"Nimal Fernando", "456 Galle Road, Galle", "94707654321", "PROD002", "", "3",
   none, "", none⟩

/-- Three orders created on the same calendar day with amounts 100, 200
and 300. -/
def exTodayOrders : List OrderRec :=
  [⟨1, "ORDA", "Kamal Perera", "123 Main Street, Colombo", "0711111111",
    "PROD001", "NIRVAAN 5KG", 1, "pending", "", 100, ts2, ts2⟩,
   ⟨2, "ORDB", "Nimal Fernando", "456 Galle Road, Galle", "0722222222",
    "PROD002", "NIRVAAN 1KG", 1, "received", "", 200, ts2, ts2⟩,
   ⟨3, "ORDC", "Sunil Rathnayake", "789 Kandy Road, Kandy", "0733333333",
    "PROD003", "POWDER 400G", 1, "delivered", "", 300, ts2, ts2⟩]

/-- Two sended orders for the bulk-update example. -/
def exBulk1 : OrderRec := exSended

/-- Second sended order, id 2. -/
def exBulk2 : OrderRec := { exSended with id := 2, order_id := "ORD202401005" }

/-- The order collection for the bulk-update example. -/
def exBulkOrders : List OrderRec := [exBulk1, exBulk2]

/-- An in-transit order whose creation and update timestamps differ. -/
def exTransit : OrderRec :=
  ⟨5, "ORD202401005", "Ranjith Bandara", "654 Matara Road, Matara", "94708889900",
   "PROD005", "NIRVAAN COCONUT CREAM 200ML", 20, "in-transit", "", 16000, ts1, ts2⟩

-- Theorems

/-- Claim C10: `Order.delete` returns true for every id, whether or not an
order with that id exists; at the repository interface a delete of a missing
order is indistinguishable from a delete of an existing one. -/
theorem delete_always_returns_true (orders : List OrderRec) (id : Nat) :
    (Order.delete orders id).2 = true := rfl

/-- Any status reachable through the transition table is a courier status. -/
theorem valid_transition_target_mem (s t : String)
    (h : isValidStatusTransition s t = true) : courierStatuses.contains t = true := by
  unfold isValidStatusTransition at h
  split at h
  · simp [List.contains] at h
    rcases h with h | h <;> subst h <;> decide
  · split at h
    · simp [List.contains] at h
      subst h; decide
    · split at h
      · simp [List.contains] at h
      · simp at h

/-- An empty target string is never reachable through the transition table. -/
theorem valid_transition_to_empty (s : String) :
    isValidStatusTransition s "" = false := by
  unfold isValidStatusTransition
  split
  · decide
  · split
    · decide
    · split
      · decide
      · rfl

/-- The transition table has an empty row for delivered. -/
theorem delivered_no_transition (t : String) :
    isValidStatusTransition "delivered" t = false := by
  unfold isValidStatusTransition
  rw [if_neg (by decide), if_neg (by decide), if_pos (by rfl)]
  rfl

/-- Refreshing the status of one id rewrites exactly the looked-up record. -/
theorem findById_updateStatusDb (orders : List OrderRec) (id : Nat) (s : String)
    (now : Timestamp) :
    findById (updateStatusDb orders id s now) id
      = (findById orders id).map (fun o => { o with status := s, updatedAt := now }) := by
  unfold findById updateStatusDb
  induction orders with
  | nil => rfl
  | cons a t ih =>
    by_cases ha : a.id = id
    · simp only [List.map_cons, List.find?, ha]
      simp [ha]
    · have h : (a.id == id) = false := by simp [ha]
      simp only [List.map_cons, List.find?, h]
      simp only [Bool.false_eq_true, if_false, List.find?, h]
      exact ih

/-- The courier update succeeds exactly when the transition table allows the
move from the status of the looked-up order. -/
theorem updateCourierStatus_ok_iff (orders : List OrderRec) (id : Nat)
    (target : String) (now : Timestamp) (o : OrderRec)
    (hfind : findById orders id = some o) :
    (updateCourierStatus orders id target now).1 = .ok
      ↔ isValidStatusTransition o.status target = true := by
  unfold updateCourierStatus
  by_cases h1 : target = ""
  · subst h1
    simp [valid_transition_to_empty]
  · by_cases h2 : courierStatuses.contains target = true
    · simp only [if_neg h1, h2, Bool.not_true, Bool.false_eq_true, if_false, hfind]
      by_cases h3 : isValidStatusTransition o.status target = true
      · simp [h3]
      · have h3' : isValidStatusTransition o.status target = false := by
          revert h3; cases isValidStatusTransition o.status target <;> simp
        simp [h3']
    · have h2' : courierStatuses.contains target = false := by
        revert h2; cases courierStatuses.contains target <;> simp
      have hnm : target ∉ courierStatuses := by simpa using h2'
      have hv : isValidStatusTransition o.status target = false := by
        cases hvt : isValidStatusTransition o.status target
        · rfl
        · exact absurd (by simpa using valid_transition_target_mem _ _ hvt) hnm
      simp [if_neg h1, hnm, hv]

/-- A failing courier update leaves the order collection untouched. -/
theorem updateCourierStatus_fail_unchanged (orders : List OrderRec) (id : Nat)
    (target : String) (now : Timestamp) (o : OrderRec)
    (hfind : findById orders id = some o)
    (hv : isValidStatusTransition o.status target = false) :
    (updateCourierStatus orders id target now).2 = orders := by
  unfold updateCourierStatus
  by_cases h1 : target = ""
  · simp [h1]
  · by_cases h2 : courierStatuses.contains target = true
    · have hm : target ∈ courierStatuses := by simpa using h2
      simp [if_neg h1, hm, hfind, hv]
    · have h2' : courierStatuses.contains target = false := by
        revert h2; cases courierStatuses.contains target <;> simp
      have hnm : target ∉ courierStatuses := by simpa using h2'
      simp [if_neg h1, hnm]

/-- When the target is a courier status but the table forbids the move, the
courier update reports the invalid-transition error. -/
theorem updateCourierStatus_invalid_transition (orders : List OrderRec) (id : Nat)
    (target : String) (now : Timestamp) (o : OrderRec)
    (hfind : findById orders id = some o)
    (hv : isValidStatusTransition o.status target = false)
    (hmem : courierStatuses.contains target = true) :
    (updateCourierStatus orders id target now).1 = .invalidTransition o.status target := by
  have h1 : ¬ (target = "") := by
    intro he
    subst he
    exact absurd hmem (by decide)
  have hm : target ∈ courierStatuses := by simpa using hmem
  unfold updateCourierStatus
  simp [if_neg h1, hm, hfind, hv]

/-- Claim C1 (amended): the courier-scoped status advance on an existing order
succeeds iff the target appears in the transition table row for the current
status of the order; otherwise the order collection is unchanged, and the
reported error is the invalid-transition error whenever the target is itself
a courier status (a non-courier target is rejected earlier as an invalid
courier status). -/
theorem courier_advance_iff_transition_table (orders : List OrderRec) (id : Nat)
    (target : String) (now : Timestamp) (o : OrderRec)
    (hfind : findById orders id = some o) :
    ((updateCourierStatus orders id target now).1 = .ok
        ↔ isValidStatusTransition o.status target = true) ∧
    (isValidStatusTransition o.status target = false →
        (updateCourierStatus orders id target now).2 = orders) ∧
    (isValidStatusTransition o.status target = false →
        courierStatuses.contains target = true →
        (updateCourierStatus orders id target now).1 = .invalidTransition o.status target) :=
  ⟨updateCourierStatus_ok_iff orders id target now o hfind,
   fun hv => updateCourierStatus_fail_unchanged orders id target now o hfind hv,
   fun hv hm => updateCourierStatus_invalid_transition orders id target now o hfind hv hm⟩

/-- Witness for claim C1: the amended theorem instantiated on a concrete
sended order and the target in-transit. -/
theorem courier_advance_iff_transition_table_witness :
    ((updateCourierStatus [exSended] 1 "in-transit" ts0).1 = .ok
        ↔ isValidStatusTransition exSended.status "in-transit" = true) ∧
    (isValidStatusTransition exSended.status "in-transit" = false →
        (updateCourierStatus [exSended] 1 "in-transit" ts0).2 = [exSended]) ∧
    (isValidStatusTransition exSended.status "in-transit" = false →
        courierStatuses.contains "in-transit" = true →
        (updateCourierStatus [exSended] 1 "in-transit" ts0).1
          = .invalidTransition exSended.status "in-transit") :=
  courier_advance_iff_transition_table [exSended] 1 "in-transit" ts0 exSended (by rfl)

/-- Counterexample for claim C1 as stated: the target pending does not appear
in the transition table row for sended, yet the rejection is the
invalid-courier-status error, not the invalid-transition error the claim
promises for every rejected target. -/
theorem courier_advance_noncourier_target_cex :
    isValidStatusTransition "sended" "pending" = false ∧
    (updateCourierStatus [exSended] 1 "pending" ts0).1
      = CourierUpdateResult.invalidCourierStatus ∧
    CourierUpdateResult.invalidCourierStatus
      ≠ CourierUpdateResult.invalidTransition "sended" "pending" := by
  refine ⟨by decide, by rfl, by decide⟩

/-- Claim C3 (amended): delivered is terminal under the courier transition
table: for an existing delivered order every courier-scoped advance is
rejected and leaves the order collection unchanged. The general status-update
endpoint, which applies no transition guard, can still move a delivered order
(see the counterexample for the claim as stated). -/
theorem delivered_terminal_under_courier_table (orders : List OrderRec) (id : Nat)
    (target : String) (now : Timestamp) (o : OrderRec)
    (hfind : findById orders id = some o) (hdel : o.status = "delivered") :
    isValidStatusTransition o.status target = false ∧
    (updateCourierStatus orders id target now).1 ≠ .ok ∧
    (updateCourierStatus orders id target now).2 = orders := by
  have hv : isValidStatusTransition o.status target = false := by
    rw [hdel]
    exact delivered_no_transition target
  refine ⟨hv, ?_, updateCourierStatus_fail_unchanged orders id target now o hfind hv⟩
  intro hok
  have := (updateCourierStatus_ok_iff orders id target now o hfind).mp hok
  rw [hv] at this
  exact absurd this (by decide)

/-- Witness for claim C3: the amended theorem instantiated on a concrete
delivered order and the target in-transit. -/
theorem delivered_terminal_under_courier_table_witness :
    isValidStatusTransition exDelivered.status "in-transit" = false ∧
    (updateCourierStatus [exDelivered] 1 "in-transit" ts0).1 ≠ .ok ∧
    (updateCourierStatus [exDelivered] 1 "in-transit" ts0).2 = [exDelivered] :=
  delivered_terminal_under_courier_table [exDelivered] 1 "in-transit" ts0 exDelivered
    (by rfl) (by rfl)

/-- Counterexample for claim C3 as stated: the db-backed general status
endpoint applies no transition guard, so a status request on a delivered
order succeeds and moves it back to pending. -/
theorem delivered_general_update_cex :
    (updateOrderStatusDb [exDelivered] 1 "pending" ts0).1 = .ok ∧
    (updateOrderStatusDb [exDelivered] 1 "pending" ts0).2
      = [{ exDelivered with status := "pending", updatedAt := ts0 }] := by
  constructor <;> rfl

/-- Claim C7 (amended): on an existing order the two general status-update
operations apply no transition guard: the db-server endpoint succeeds exactly
for the full seven-member state set (cancelled included), while the controller
variant succeeds exactly for its six-member list without cancelled; a value
outside the respective list is rejected with the invalid-status error. -/
theorem general_status_update_iff (orders : List OrderRec) (id : Nat)
    (status : String) (now : Timestamp) (o : OrderRec)
    (hid : 1 ≤ id) (hfind : findById orders id = some o) :
    ((updateOrderStatusDb orders id status now).1 = .ok
        ↔ validStatusesDb.contains status = true) ∧
    ((updateOrderStatusCtrl orders id status now).1 = .ok
        ↔ validStatusesCtrl.contains status = true) ∧
    (validStatusesDb.contains status = false →
        (updateOrderStatusDb orders id status now).1 = .invalidStatus) ∧
    (validStatusesCtrl.contains status = false →
        (updateOrderStatusCtrl orders id status now).1 = .invalidStatus) := by
  have hid' : ¬ (id < 1) := by omega
  by_cases h1 : status = ""
  · subst h1
    refine ⟨?_, ?_, ?_, ?_⟩ <;>
      simp [updateOrderStatusDb, updateOrderStatusCtrl, hid'] <;> decide
  · by_cases hdb : validStatusesDb.contains status = true
    all_goals by_cases hc : validStatusesCtrl.contains status = true
    all_goals
      refine ⟨?_, ?_, ?_, ?_⟩ <;>
        simp [updateOrderStatusDb, updateOrderStatusCtrl, hid', h1, hdb, hc,
          findById_updateStatusDb, hfind,
          Bool.not_eq_true] <;>
        simp_all

/-- Witness for claim C7: both endpoints move a concrete sended order back to
received, showing the absence of a transition guard; applied through the
amended theorem. -/
theorem general_status_update_iff_witness :
    ((updateOrderStatusDb [exSended] 1 "received" ts0).1 = .ok
        ↔ validStatusesDb.contains "received" = true) ∧
    ((updateOrderStatusCtrl [exSended] 1 "received" ts0).1 = .ok
        ↔ validStatusesCtrl.contains "received" = true) ∧
    (validStatusesDb.contains "received" = false →
        (updateOrderStatusDb [exSended] 1 "received" ts0).1 = .invalidStatus) ∧
    (validStatusesCtrl.contains "received" = false →
        (updateOrderStatusCtrl [exSended] 1 "received" ts0).1 = .invalidStatus) :=
  general_status_update_iff [exSended] 1 "received" ts0 exSended (by decide) (by rfl)

/-- Counterexample for claim C7 as stated: cancelled belongs to the full
finite state set (the db-server list), yet the controller variant of the
general status update rejects it on an existing order. -/
theorem ctrl_rejects_cancelled_cex :
    validStatusesDb.contains "cancelled" = true ∧
    (updateOrderStatusCtrl [exSended] 1 "cancelled" ts0).1 = .invalidStatus ∧
    (updateOrderStatusDb [exSended] 1 "cancelled" ts0).1 = .ok := by
  refine ⟨by decide, by rfl, by rfl⟩

/-- Field validation reads only the five checked fields, so rewriting the
product name, status and amount of a payload leaves its violations as is. -/
theorem validateOrderData_update (input : OrderInput) (pn : String)
    (st : Option String) (ta : Option Int) :
    validateOrderData { input with product_name := pn, status := st, total_amount := ta }
      = validateOrderData input := rfl

/-- Claim C2 (amended): through the controller creation path, a valid payload
with no explicit amount produces an order whose status is the creation
default pending, with the amount computed as quantity times the catalog unit
price of the resolved product. (The bare repository create prices with a
fixed 10000 instead, and the in-memory path creates orders with status
received: see the counterexample.) -/
theorem creation_status_and_total (catalog : List Product) (input : OrderInput)
    (orderCode : String) (nextId : Nat) (now : Timestamp) (p : Product) (q : Int)
    (hp : catalog.find? (fun pr => pr.product_id == input.product_id) = some p)
    (hq : jsParseInt input.quantity = some q)
    (hq1 : 1 ≤ q)
    (hprice : 0 < p.price)
    (hnoamount : input.total_amount = none)
    (hval : validateOrderData input = []) :
    ∃ o, createOrder catalog input orderCode nextId now = .ok o ∧
      o.status = "pending" ∧ o.total_amount = q * p.price := by
  have hpos : (0 : Int) < q * p.price := mul_pos (by omega) hprice
  have hne : ¬ (q * p.price = 0) := by omega
  unfold createOrder
  rw [hp]
  simp only [hnoamount, hq, Option.map_some']
  unfold Order.create
  rw [validateOrderData_update, hval]
  simp only [ne_eq, not_true_eq_false, if_false, hq, if_neg hne]
  exact ⟨_, rfl, rfl, rfl⟩

/-- Witness for claim C2: the amended theorem instantiated on a concrete
payload for the 2500-priced catalog product with quantity 3. -/
theorem creation_status_and_total_witness :
    ∃ o, createOrder exCatalog exInputPROD002 "ORD202401099" 7 ts0 = .ok o ∧
      o.status = "pending" ∧ o.total_amount = 3 * 2500 :=
  creation_status_and_total exCatalog exInputPROD002 "ORD202401099" 7 ts0
    ⟨"PROD002", "NIRVAAN 1KG (PURE COCONUT OIL)", 2500⟩ 3
    (by rfl) (by rfl) (by decide) (by decide) (by rfl) (by rfl)

/-- Counterexample for claim C2 as stated: the in-memory creation endpoint
gives a freshly created order the status received, not the defined initial
state, and the bare repository create with no explicit amount prices a
3-unit order of the 2500-priced product at 30000 (the fixed 10000 fallback),
not at quantity times the catalog unit price. -/
theorem creation_initial_state_cex :
    memCreatedStatus (memCreateOrder [] exMemInput ts0) = some "received" ∧
    some "received" ≠ some "pending" ∧
    createdTotal (Order.create exInputPROD002 "ORD202401098" 2 ts0) = some 30000 ∧
    (30000 : Int) ≠ 3 * 2500 := by
  refine ⟨by rfl, by decide, by rfl, by decide⟩

/-- Claim C4 (amended): on a nonempty order set the db-backed dashboard stats
report the revenue as the sum of the stored amounts, the today bucket as the
number of orders created on the current calendar day, and the courier bucket
as the number of orders in the union of the three courier statuses. (The
in-memory stats variant counts only sended and in-transit in its courier
bucket and reports no revenue field: see the counterexample.) -/
theorem dashboard_stats_totals (orders : List OrderRec) (curdate : Date)
    (hne : orders ≠ []) :
    (getDashboardStats orders curdate).total_revenue = some (specTotalRevenue orders) ∧
    (getDashboardStats orders curdate).today = some (specTodayCount orders curdate) ∧
    (getDashboardStats orders curdate).courier = some (specCourierCount orders) := by
  have hne' : orders.isEmpty = false := by
    cases orders with
    | nil => exact absurd rfl hne
    | cons a t => rfl
  refine ⟨?_, ?_, ?_⟩
  · simp [getDashboardStats, sqlSumAmount, specTotalRevenue, hne']
  · simp [getDashboardStats, sqlCountIf, specTodayCount, hne']
  · simp only [getDashboardStats, sqlCountIf, hne', Bool.false_eq_true, if_false,
      specCourierCount, Option.some.injEq]
    congr 1
    apply List.filter_congr
    intro o _
    by_cases h1 : o.status = "sended" <;> by_cases h2 : o.status = "in-transit" <;>
      by_cases h3 : o.status = "delivered" <;>
      simp [courierStatuses, List.contains, h1, h2, h3]

/-- Witness for claim C4: the amended theorem applied to three orders created
on the same calendar day with amounts 100, 200 and 300 gives the revenue 600
and a today bucket of 3. -/
theorem dashboard_stats_totals_witness :
    (getDashboardStats exTodayOrders date0).total_revenue = some 600 ∧
    (getDashboardStats exTodayOrders date0).today = some 3 := by
  have h := dashboard_stats_totals exTodayOrders date0 (by decide)
  exact ⟨h.1.trans (by decide), h.2.1.trans (by decide)⟩

/-- Counterexample for claim C4 as stated: the in-memory dashboard stats
count a delivered order in no bucket of their courier field, although the
claim requires the courier bucket to cover the full union including
delivered. -/
theorem mem_dashboard_courier_cex :
    (memDashboardStats [exDelivered] date0).courier = 0 ∧
    specCourierCount [exDelivered] = 1 := by
  exact ⟨by rfl, by rfl⟩

/-- Claim C5 (amended): on an empty order set the dashboard endpoints report
every numeric field as 0: the db-backed endpoint coerces each NULL aggregate
with parseInt-or-zero (and omits the revenue field), and the in-memory
endpoint computes plain zero counts. The repository-level stats row itself
carries NULL, not 0, in every SUM-derived field (see the counterexample). -/
theorem empty_set_stats_zero (d : Date) (e : Date) :
    formatDashboardStats (getDashboardStats [] d) = ⟨0, 0, 0, 0, 0, 0, 0⟩ ∧
    memDashboardStats [] e = ⟨0, 0, 0, 0, 0, 0, 0⟩ :=
  ⟨rfl, rfl⟩

/-- Counterexample for claim C5 as stated: over an empty order set the
repository-level dashboard aggregate yields NULL, not 0, for the pending
bucket and the revenue sum, because SUM over zero rows is NULL and the
zero-filled fallback row in the source is unreachable. -/
theorem empty_set_stats_null_cex :
    (getDashboardStats [] date0).pending = none ∧
    (getDashboardStats [] date0).total_revenue = none :=
  ⟨rfl, rfl⟩

/-- Each loop iteration of the bulk update appends exactly one entry, so the
two report lists together grow by the number of processed ids. -/
theorem bulk_foldl_counts (status : String) (now : Timestamp) (ids : List Nat)
    (acc : BulkReport × List OrderRec) :
    ((ids.foldl (bulkStep status now) acc).1.successful.length
        + (ids.foldl (bulkStep status now) acc).1.failed.length)
      = acc.1.successful.length + acc.1.failed.length + ids.length := by
  induction ids generalizing acc with
  | nil => simp
  | cons i rest ih =>
    rw [List.foldl_cons, ih]
    unfold bulkStep
    cases hf : findById acc.2 i with
    | none =>
      simp
      omega
    | some o =>
      by_cases hv : isValidStatusTransition o.status status = true
      · simp [hv]
        omega
      · have hv' : isValidStatusTransition o.status status = false := by
          revert hv; cases isValidStatusTransition o.status status <;> simp
        simp [hv']
        omega

/-- Claim C6 (amended): for a nonempty id list and a courier target status,
the bulk update processes every id independently and returns the per-id
report, whose success and failure counts add up to the number of submitted
ids; an id that fails never prevents the others from being processed. An
empty id list or a non-courier target is rejected wholesale with no per-id
report (see the counterexample). -/
theorem bulk_advance_per_id_report (orders : List OrderRec) (orderIds : List Nat)
    (status : String) (now : Timestamp)
    (hne : orderIds ≠ [])
    (hstatus : courierStatuses.contains status = true) :
    ∃ results, (bulkUpdateStatus orders orderIds status now).1 = .report results ∧
      results.successful.length + results.failed.length = orderIds.length := by
  have hne' : orderIds.isEmpty = false := by
    cases orderIds with
    | nil => exact absurd rfl hne
    | cons a t => rfl
  have hs1 : ¬ (status = "") := by
    intro h
    subst h
    exact absurd hstatus (by decide)
  have hm : status ∈ courierStatuses := by simpa using hstatus
  refine ⟨(orderIds.foldl (bulkStep status now) (⟨[], []⟩, orders)).1, ?_, ?_⟩
  · simp [bulkUpdateStatus, hne', hs1, hm]
  · have h := bulk_foldl_counts status now orderIds (⟨[], []⟩, orders)
    simpa using h

/-- Witness for claim C6: two updatable ids and one nonexistent id produce
two successes and one failure, with the valid ones never aborted; the count
identity is the amended theorem applied at this input. -/
theorem bulk_advance_per_id_report_witness :
    (∃ results,
        (bulkUpdateStatus exBulkOrders [1, 2, 999] "delivered" ts0).1 = .report results ∧
        results.successful.length + results.failed.length = 3) ∧
    (bulkUpdateStatus exBulkOrders [1, 2, 999] "delivered" ts0).1
      = .report ⟨[1, 2], [(999, "Order not found")]⟩ :=
  ⟨bulk_advance_per_id_report exBulkOrders [1, 2, 999] "delivered" ts0
      (by decide) (by decide),
   by rfl⟩

/-- Counterexample for claim C6 as stated: with one submitted id and the
target status pending the bulk update returns a wholesale invalid-status
rejection and no per-id report at all, so the promised success/failure
report for every target status does not exist. -/
theorem bulk_advance_wholesale_reject_cex :
    (bulkUpdateStatus [exSended] [1] "pending" ts0).1 = .badRequest "Invalid status" ∧
    (bulkUpdateStatus [exSended] [1] "pending" ts0).2 = [exSended] :=
  ⟨rfl, rfl⟩

/-- Claim C8 (amended): for an order in any of the six stored statuses the
delivery timeline is the ordered checkpoint sequence placed, processed,
sent-to-courier, in-transit, delivered, a checkpoint being completed exactly
when the order status sits at or beyond it in the canonical ordering; every
completed checkpoint after the first carries updatedAt as its timestamp,
while the first checkpoint is always completed and carries createdAt (not
updatedAt as the claim states: see the counterexample). -/
theorem delivery_timeline_matches_canonical (o : OrderRec)
    (h : o.status ∈ validStatusesCtrl) :
    getDeliveryTimeline o = specDeliveryTimeline o := by
  simp only [validStatusesCtrl, List.mem_cons, List.not_mem_nil, or_false] at h
  rcases h with h | h | h | h | h | h <;>
    simp [getDeliveryTimeline, specDeliveryTimeline, statusIndex, timelineCheckpoints,
      List.contains, h]

/-- Witness for claim C8: the amended theorem applied to a concrete
in-transit order; its first four checkpoints are completed and the delivered
checkpoint is not. -/
theorem delivery_timeline_matches_canonical_witness :
    getDeliveryTimeline exTransit = specDeliveryTimeline exTransit :=
  delivery_timeline_matches_canonical exTransit (by decide)

/-- Counterexample for claim C8 as stated: on an in-transit order whose
creation and update timestamps differ, the first checkpoint is completed yet
carries createdAt, not updatedAt as the claim requires of every completed
checkpoint. -/
theorem timeline_first_checkpoint_cex :
    (getDeliveryTimeline exTransit).head?
      = some ⟨"order-placed", "Order Placed", some ts1, true⟩ ∧
    exTransit.updatedAt = ts2 ∧ ts1 ≠ ts2 := by
  refine ⟨by rfl, by rfl, by decide⟩

/-- The mobile violation sits in the accumulated validation report exactly
when the mobile acceptance check fails; the other four rules contribute only
their own distinct messages. -/
theorem mobile_error_iff (data : OrderInput) :
    "Valid mobile number is required" ∈ validateOrderData data
      ↔ mobileAccepted data.mobile = false := by
  unfold validateOrderData
  simp only [List.mem_append]
  constructor
  · intro h
    rcases h with (((h | h) | h) | h) | h <;> split at h <;> simp_all
  · intro hf
    left
    left
    right
    simp [hf]

/-- Claim C9: the mobile rule of the order validator accepts a value exactly
when, after stripping whitespace, dashes and plus signs, only digits remain
and their count lies in [10, 15]; the separated number 070-123-4567 is
accepted and the five-digit 12345 is rejected. Acceptance is stated both as
the absence of the mobile violation in the accumulated validation report and
as the characterisation of the acceptance check itself. -/
theorem mobile_validation_rule (data : OrderInput) (m : String) :
    ("Valid mobile number is required" ∉ validateOrderData data
        ↔ mobileAccepted data.mobile = true) ∧
    (mobileAccepted m = true
        ↔ ((stripSeparators m).all (fun c => c.isDigit) = true ∧
           10 ≤ (stripSeparators m).length ∧ (stripSeparators m).length ≤ 15)) ∧
    mobileAccepted "070-123-4567" = true ∧
    mobileAccepted "12345" = false := by
  refine ⟨?_, ?_, by decide, by decide⟩
  · constructor
    · intro h
      cases hmA : mobileAccepted data.mobile with
      | true => rfl
      | false => exact absurd ((mobile_error_iff data).mpr hmA) h
    · intro hA hmem
      have hf := (mobile_error_iff data).mp hmem
      rw [hA] at hf
      exact absurd hf (by decide)
  · by_cases hm : m = ""
    · subst hm
      constructor
      · intro h
        exact absurd h (by decide)
      · intro h
        exact absurd h.2.1 (by decide)
    · simp [mobileAccepted, mobileRegexTest, hm, Bool.and_eq_true, and_assoc]
